import Mathlib

/-
Verification of `src/script.js` (offerteContratti): a browser form that renders
a freight-offer document into an HTML preview (`updatePreview`) and a PDF
export (`downloadPDF`, via the external jsPDF library).

Strings are modelled as lists of characters (`Str`), so that the JavaScript
string operations used by the source (`includes`, `replace` with a string
pattern, i.e. first occurrence only, regex global replacement of
`[^a-zA-Z0-9]+`) can be given exact executable definitions.
-/

namespace OfferteContratti

/-- JavaScript strings, modelled as lists of characters. -/
abbrev Str := List Char

/-- Conversion from Lean string literals into the model. -/
def tl (s : String) : Str := s.toList

/-- The suppress marker `'#HIDE#'` (src/script.js:52, 57). -/
def marker : Str := ['#', 'H', 'I', 'D', 'E', '#']

/-- `startsWith pat l` : `l` begins with `pat` (character-wise). -/
def startsWith : Str → Str → Bool
  | [], _ => true
  | _ :: _, [] => false
  | p :: ps, c :: cs => (p == c) && startsWith ps cs

/-- JavaScript `l.includes(pat)` : `pat` occurs as a contiguous substring. -/
def containsSub (pat : Str) : Str → Bool
  | [] => startsWith pat []
  | c :: cs => startsWith pat (c :: cs) || containsSub pat cs

/-- JavaScript `l.replace(pat, repl)` with a *string* pattern: replaces only
the leftmost occurrence of `pat`, or returns `l` unchanged when `pat` does
not occur (src/script.js:57). -/
def replaceFirst (pat repl : Str) : Str → Str
  | [] => if startsWith pat [] then repl else []
  | c :: cs =>
    if startsWith pat (c :: cs) then repl ++ (c :: cs).drop pat.length
    else c :: replaceFirst pat repl cs

/-- `val` (src/script.js:44-58). A field is `none` when the id/element is
missing (the function then returns the empty string); otherwise it holds the
element's raw string value. For the PDF (`forPDF = true`) a value containing
`#HIDE#` is fully suppressed; for the preview only the first occurrence of
the marker is removed. -/
def val (field : Option Str) (forPDF : Bool) : Str :=
  match field with
  | none => []
  | some value =>
    if forPDF && containsSub marker value then []
    else replaceFirst marker [] value

/-- `/[^a-zA-Z0-9]/` : the character class used by the filename slug regex
(src/script.js:393). -/
def isAlnum (c : Char) : Bool :=
  ('a' ≤ c && c ≤ 'z') || ('A' ≤ c && c ≤ 'Z') || ('0' ≤ c && c ≤ '9')

/-- One pass of the global regex replacement `/[^a-zA-Z0-9]+/g → '-'`
(src/script.js:393): `prevNon` records whether the previous character was part
of a non-alphanumeric run that has already emitted its single `'-'`. -/
def slugGo : Bool → Str → Str
  | _, [] => []
  | prevNon, c :: cs =>
    if isAlnum c then c :: slugGo false cs
    else if prevNon then slugGo true cs
    else '-' :: slugGo true cs

/-- `value.replace(/[^a-zA-Z0-9]+/g, '-')` (src/script.js:393). -/
def slugify (v : Str) : Str := slugGo false v

/-- No two adjacent characters are both non-alphanumeric (each separator run
is collapsed to a single character). -/
def collapsedOk : Str → Bool
  | [] => true
  | [_] => true
  | a :: b :: r => (isAlnum a || isAlnum b) && collapsedOk (b :: r)

/--
The form state: one entry per DOM input element referenced by the script
(src/script.js:74-109).  `none` models a missing element (then `val` yields
the empty string, src/script.js:45-47); `some v` models an element whose
current value is `v`.  The empty string is a valid value for every field.
-/
structure Fields where
  docCompany : Option Str := none
  docAddress : Option Str := none
  docCity : Option Str := none
  docPhone : Option Str := none
  docFiscal : Option Str := none
  docOfferNum : Option Str := none
  docRef : Option Str := none
  docDate : Option Str := none
  destName : Option Str := none
  destAddress : Option Str := none
  destCity : Option Str := none
  destContact : Option Str := none
  destPhone : Option Str := none
  destEmail : Option Str := none
  serviceDesc : Option Str := none
  serviceRoute : Option Str := none
  servicePrice : Option Str := none
  serviceMaterial : Option Str := none
  serviceCIG : Option Str := none
  serviceCUP : Option Str := none
  condMinTax : Option Str := none
  condLoadTime : Option Str := none
  condUnloadTime : Option Str := none
  condExtraCost : Option Str := none
  condMuncato : Option Str := none
  condDeadline : Option Str := none
  condPayment : Option Str := none
  closingText : Option Str := none

/-- The HTML template assigned to `previewElement.innerHTML`
(src/script.js:145-198), with each `${val(...)}` interpolation replaced by the
embedded `val` (default `forPDF = false`). -/
def renderMarkup (fs : Fields) : Str :=
  tl "\n        <div class=\"mb-2\">\n            <div class=\"flex justify-between items-start\">\n                <div>\n                    <div class=\"font-bold text-lg\">"
  ++ val fs.docCompany false
  ++ tl "</div>\n                    <div class=\"text-sm\">"
  ++ val fs.docAddress false
  ++ tl "</div>\n                    <div class=\"text-sm\">"
  ++ val fs.docCity false
  ++ tl "</div>\n                    <div class=\"text-sm\">"
  ++ val fs.docPhone false
  ++ tl "</div>\n                    <div class=\"text-xs\">"
  ++ val fs.docFiscal false
  ++ tl "</div>\n                </div>\n                <div class=\"text-right\">\n                    <div class=\"font-bold text-base\">OFFERTA</div>\n                    <div class=\"text-sm\">N. "
  ++ val fs.docOfferNum false
  ++ tl "</div>\n                    <div class=\"text-sm\">Ns. Referente: "
  ++ val fs.docRef false
  ++ tl "</div>\n                    <div class=\"text-sm\">Fontaniva "
  ++ val fs.docDate false
  ++ tl "</div>\n                </div>\n            </div>\n        </div>\n        <hr class=\"my-2\">\n        <div class=\"mb-2\">\n            <div class=\"font-bold text-base mb-1\">Destinatario</div>\n            <div class=\"text-sm\">"
  ++ val fs.destName false
  ++ tl "</div>\n            <div class=\"text-sm\">"
  ++ val fs.destAddress false
  ++ tl "</div>\n            <div class=\"text-sm\">"
  ++ val fs.destCity false
  ++ tl "</div>\n            <div class=\"text-sm\">Interlocutore: "
  ++ val fs.destContact false
  ++ tl "</div>\n            <div class=\"text-sm\">Telefono/Fax: "
  ++ val fs.destPhone false
  ++ tl "</div>\n            <div class=\"text-sm\">Email: "
  ++ val fs.destEmail false
  ++ tl "</div>\n        </div>\n        <hr class=\"my-2\">\n        <div class=\"mb-2\">\n            <div class=\"font-bold text-base mb-1\">Descrizione Servizio</div>\n            <div class=\"text-sm\">Descrizione: "
  ++ val fs.serviceDesc false
  ++ tl "</div>\n            <div class=\"text-sm\">Tratta: "
  ++ val fs.serviceRoute false
  ++ tl "</div>\n            <div class=\"text-sm\">Prezzo: "
  ++ val fs.servicePrice false
  ++ tl "</div>\n            <div class=\"text-sm\">Materiale/CER: "
  ++ val fs.serviceMaterial false
  ++ tl "</div>\n            <div class=\"text-sm\">CIG: "
  ++ val fs.serviceCIG false
  ++ tl " &nbsp; CUP: "
  ++ val fs.serviceCUP false
  ++ tl "</div>\n        </div>\n        <hr class=\"my-2\">\n        <div class=\"mb-2\">\n            <div class=\"font-bold text-base mb-1\">Condizioni</div>\n            <div class=\"text-sm\">Minimo Tassabile: "
  ++ val fs.condMinTax false
  ++ tl "</div>\n            <div class=\"text-sm\">Tempi di Carico: "
  ++ val fs.condLoadTime false
  ++ tl "</div>\n            <div class=\"text-sm\">Tempi di Scarico: "
  ++ val fs.condUnloadTime false
  ++ tl "</div>\n            <div class=\"text-sm\">Extra Sosta Carico/Scarico: "
  ++ val fs.condExtraCost false
  ++ tl "</div>\n            <div class=\"text-sm\">Mancato Carico: "
  ++ val fs.condMuncato false
  ++ tl "</div>\n            <div class=\"text-sm\">Data fine: "
  ++ val fs.condDeadline false
  ++ tl "</div>\n            <div class=\"text-sm\">Pagamento: "
  ++ val fs.condPayment false
  ++ tl "</div>\n        </div>\n        <hr class=\"my-2\">\n        <div class=\"mb-2\">\n            <div class=\"font-bold text-base mb-1\">Testo di chiusura</div>\n            <div class=\"text-sm\">"
  ++ val fs.closingText false
  ++ tl "</div>\n        </div>\n    "

/-- The JavaScript runtime error raised when `previewElement` is `null` and
`updatePreview` assigns `previewElement.innerHTML` (src/script.js:145). -/
def tyErrMsg : Str :=
  tl "TypeError: Cannot set properties of null (setting innerHTML)"

/-- `updatePreview` (src/script.js:144-199) acting on the preview element.
`previewEl` is `none` when the `document-preview` element is absent (then the
unguarded `previewElement.innerHTML = ...` assignment throws); otherwise it
holds the element's previous `innerHTML`, which the assignment wholly
replaces with the rendered template. -/
def updatePreviewRun (previewEl : Option Str) (fs : Fields) : Except Str Str :=
  match previewEl with
  | none => Except.error tyErrMsg
  | some _ => Except.ok (renderMarkup fs)

/-- A missing field replaced by an element holding the empty string. -/
def normField (o : Option Str) : Option Str := some (o.getD [])

/-- Replacing every missing field by an element holding the empty string. -/
def normalizeFields (fs : Fields) : Fields where
  docCompany := normField fs.docCompany
  docAddress := normField fs.docAddress
  docCity := normField fs.docCity
  docPhone := normField fs.docPhone
  docFiscal := normField fs.docFiscal
  docOfferNum := normField fs.docOfferNum
  docRef := normField fs.docRef
  docDate := normField fs.docDate
  destName := normField fs.destName
  destAddress := normField fs.destAddress
  destCity := normField fs.destCity
  destContact := normField fs.destContact
  destPhone := normField fs.destPhone
  destEmail := normField fs.destEmail
  serviceDesc := normField fs.serviceDesc
  serviceRoute := normField fs.serviceRoute
  servicePrice := normField fs.servicePrice
  serviceMaterial := normField fs.serviceMaterial
  serviceCIG := normField fs.serviceCIG
  serviceCUP := normField fs.serviceCUP
  condMinTax := normField fs.condMinTax
  condLoadTime := normField fs.condLoadTime
  condUnloadTime := normField fs.condUnloadTime
  condExtraCost := normField fs.condExtraCost
  condMuncato := normField fs.condMuncato
  condDeadline := normField fs.condDeadline
  condPayment := normField fs.condPayment
  closingText := normField fs.closingText

/-- The `console.warn` message of `getEl` (src/script.js:39). -/
def warnMsg (id : Str) : Str :=
  tl "Element with id \"" ++ id ++ tl "\" not found."

/-- `getEl` (src/script.js:37-41): looks an id up in the document; when the
element is absent it logs a warning identifying the id and returns `null`.
Returns the element (its value) together with the warnings logged. -/
def getElM (dom : Str → Option Str) (id : Str) : Option Str × List Str :=
  match dom id with
  | none => (none, [warnMsg id])
  | some v => (some v, [])

/-- A drawing operation issued against the jsPDF document.  Font, color and
alignment settings are omitted: they do not move the cursor.  `text` records
the drawn lines (one element for a plain string, the split result for a
wrapped text) and the position of the first line. -/
inductive Op
  | text (lines : List Str) (x y : Nat)
  | rect (x y w h : Nat)
  | line (x1 y1 x2 y2 : Nat)
  | addPage

def isAddPage : Op → Bool
  | Op.text _ _ _ => false
  | Op.rect _ _ _ _ => false
  | Op.line _ _ _ _ => false
  | Op.addPage => true

/-- Number of pages of the finished document: jsPDF starts with one page and
adds one per `addPage` call. -/
def pages (ops : List Op) : Nat := 1 + (ops.filter isAddPage).length

/-- The vertical positions of the individual lines drawn by an operation.
A multi-line `doc.text` call advances 5 mm per line, the constant the source
itself uses to account for wrapped lines (src/script.js:289, 371). -/
def opLineYs : Op → List Nat
  | Op.text lines _ y => (List.range lines.length).map (fun i => y + 5 * i)
  | Op.rect _ _ _ _ => []
  | Op.line _ _ _ _ => []
  | Op.addPage => []

/-- All vertical line positions drawn while building the document. -/
def drawnLineYs (ops : List Op) : List Nat := (ops.map opLineYs).flatten

/-- `margin` inside `downloadPDF` (src/script.js:228). -/
def margin : Nat := 15

/-- A4 portrait width in mm (src/script.js:225-226). -/
def pageWidth : Nat := 210

/-- A4 portrait height in mm (src/script.js:225, 227). -/
def pageHeight : Nat := 297

/-- `maxTextWidth = pageWidth - 2 * margin` (src/script.js:230). -/
def maxTextWidth : Nat := pageWidth - 2 * margin

/-- The fixed introduction sentence (src/script.js:286). -/
def introText : Str :=
  tl "Con la presente Vi trasmettiamo la nostra migliore offerta per la prestazione dei servizi di seguito indicati."

/-- `offerta-` ++ slug ++ `.pdf` : the file name passed to `doc.save`
(src/script.js:393). -/
def pdfFileName (fs : Fields) : Str :=
  tl "offerta-" ++ slugify (val fs.docOfferNum true) ++ tl ".pdf"

/--
The sequence of drawing operations issued by `downloadPDF`
(src/script.js:225-390) when jsPDF is available, with the `currentY` cursor
arithmetic carried out (each constant annotated with its source line).

`split` abstracts `doc.splitTextToSize` (implemented by the external jsPDF
library, so kept as a parameter) and `pivaOf` abstracts the regex capture
`.match(/P\.IVA\s*([A-Z0-9]+)/i)` of src/script.js:381, which no claim
depends on.  Note that no branch of the source ever calls `addPage` and that
`currentY` is never compared with `pageHeight`.
-/
def buildOps (split : Str → Nat → List Str) (pivaOf : Str → Str) (fs : Fields) : List Op :=
  let introLines := split introText maxTextWidth       -- line 287
  let li := introLines.length
  let closingLines := split (val fs.closingText true) maxTextWidth  -- line 369
  [Op.text [val fs.docCompany true] 15 15,             -- line 236, currentY = margin = 15
   Op.text [val fs.docAddress true] 15 19,             -- line 240, currentY = 15+4
   Op.text [val fs.docCity true] 15 23,                -- line 242, +4
   Op.text [val fs.docPhone true] 15 27,               -- line 245, +4
   Op.text [val fs.docFiscal true] 15 31,              -- line 249, +4
   Op.text [tl "N. " ++ val fs.docOfferNum true] 15 56,             -- line 253, +25
   Op.text [tl "Ns. Referente: " ++ val fs.docRef true] 15 61,      -- line 256, +5
   Op.text [tl "Fontaniva " ++ val fs.docDate true] 15 66,          -- line 259, +5
   Op.rect 130 35 70 40,                               -- line 270: boxX = 210-80, boxY = 15+20, boxW = 70
   Op.text [tl "Spettabile"] 132 40,                   -- line 273: boxX+2, boxY+5
   Op.text [val fs.destName true] 132 45,              -- line 275, boxY+10
   Op.text [val fs.destAddress true] 132 50,           -- line 276, boxY+15
   Op.text [val fs.destCity true] 132 55,              -- line 277, boxY+20
   Op.text [tl "Interlocutore: " ++ val fs.destContact true] 132 60,  -- line 278, boxY+25
   Op.text [tl "Telefono, Fax: " ++ val fs.destPhone true] 132 64,    -- line 279, boxY+29
   Op.text [tl "Email: " ++ val fs.destEmail true] 132 68,            -- line 280, boxY+33
   Op.text introLines 15 101,                          -- line 288, currentY = 71+30 (line 283)
   Op.text [tl "Descrizione"] 15 (103 + 5 * li),       -- line 294, currentY = 101 + 5*li + 2 (line 289)
   Op.line 15 (105 + 5 * li) 195 (105 + 5 * li),       -- line 297, currentY+2; pageWidth-margin = 195
   Op.text [val fs.serviceDesc true] 15 (113 + 5 * li),              -- line 303, +10 (line 298)
   Op.text [val fs.serviceRoute true] 15 (123 + 5 * li),             -- line 309, +10 (line 304)
   Op.text [val fs.servicePrice true] 195 (123 + 5 * li),            -- line 310, align right at 195
   Op.text [tl "Materiale/CER: " ++ val fs.serviceMaterial true] 15 (131 + 5 * li),  -- line 314, +8
   Op.text [tl "CIG: " ++ val fs.serviceCIG true] 15 (139 + 5 * li), -- line 319, +8
   Op.text [tl "CUP: " ++ val fs.serviceCUP true] 75 (139 + 5 * li), -- line 321, margin+60
   Op.text [tl "Minimo Tassabile:"] 15 (147 + 5 * li),               -- line 326, +8
   Op.text [val fs.condMinTax true] 55 (147 + 5 * li),               -- line 328, margin+40
   Op.text [tl "Tempi di Carico:"] 15 (153 + 5 * li),                -- line 332, +6
   Op.text [val fs.condLoadTime true] 55 (153 + 5 * li),             -- line 334
   Op.text [tl "Tempi di Scarico:"] 15 (159 + 5 * li),               -- line 338, +6
   Op.text [val fs.condUnloadTime true] 55 (159 + 5 * li),           -- line 340
   Op.text [tl "Extra Sosta Carico/Scarico:"] 15 (165 + 5 * li),     -- line 344, +6
   Op.text [val fs.condExtraCost true] 75 (165 + 5 * li),            -- line 346, margin+60
   Op.text [tl "Mancato Carico:"] 15 (171 + 5 * li),                 -- line 350, +6
   Op.text [val fs.condMuncato true] 55 (171 + 5 * li),              -- line 352
   Op.text [tl "Data fine"] 15 (181 + 5 * li),                       -- line 357, +10 (line 353)
   Op.text [val fs.condDeadline true] 33 (181 + 5 * li),             -- line 359, margin+18
   Op.text [tl "Pagamento"] 85 (181 + 5 * li),                       -- line 361, margin+70
   Op.text [val fs.condPayment true] 105 (181 + 5 * li),             -- line 363, margin+90
   Op.text closingLines 15 (189 + 5 * li),                           -- line 370, +8 (line 364)
   Op.text [val fs.destName true] 15 232,              -- line 376: pageHeight-margin-50
   Op.text [val fs.destAddress true] 15 236,           -- line 379: pageHeight-margin-46
   Op.text [val fs.destCity true] 15 239,              -- line 380: pageHeight-margin-43
   Op.text [tl "P.IVA " ++ pivaOf (val fs.docFiscal true)] 15 242,   -- line 381: pageHeight-margin-40
   Op.text [tl "Vaccari Srl"] 195 232,                 -- line 385
   Op.text [tl "Sede Legale: Viale G. Parini, 31/1 - 36100 Vicenza (VI)"] 195 236,    -- line 388
   Op.text [tl "Sede Operativa: Via E. Alighieri, 2, 35010 Cadoneghe (PD)"] 195 239,  -- line 389
   Op.text [tl "P.IVA: 00863050246"] 195 242]          -- line 390

/-- Observable UI / side-effect state touched by the error-handling paths:
the download button, `alert` dialogs, console output, and the documents
handed to `doc.save`. -/
structure UIState where
  buttonPresent : Bool
  buttonDisabled : Bool
  buttonText : Str
  alerts : List Str
  consoleErrors : List Str
  consoleWarnings : List Str
  savedDocs : List (List Op × Str)

/-- `setDownloadButtonState` (src/script.js:61-66): when the button element
is missing, `getEl` logs a warning and the function is a no-op; otherwise it
sets the disabled flag and (when `text` is not `null`) the label. -/
def setDownloadButtonState (disabled : Bool) (text : Option Str) (st : UIState) : UIState :=
  if st.buttonPresent then
    { st with
      buttonDisabled := disabled
      buttonText := match text with | none => st.buttonText | some t => t }
  else
    { st with consoleWarnings := st.consoleWarnings ++ [warnMsg (tl "download-btn")] }

/-- The replacement button label used on capability failure
(src/script.js:220, 399). -/
def errorLabel : Str := tl "Error: PDF Library Not Loaded"

/-- The startup check (src/script.js:397-400): when jsPDF failed to load, an
error is logged and the download button is disabled with a replaced label. -/
def startupCheck (avail : Bool) (st : UIState) : UIState :=
  if avail then st
  else
    setDownloadButtonState true (some errorLabel)
      { st with consoleErrors :=
          st.consoleErrors ++ [tl "jsPDF library failed to load. PDF generation is unavailable."] }

/-- `downloadPDF` (src/script.js:217-394).  When jsPDF is unavailable
(`avail = false`) the guard of lines 218-223 runs: a console error, the
disabled/relabeled button, an `alert`, and an early return with no document.
Otherwise the document is built and handed to `doc.save`. -/
def downloadPDFrun (avail : Bool) (split : Str → Nat → List Str) (pivaOf : Str → Str)
    (fs : Fields) (st : UIState) : UIState :=
  if avail then
    { st with savedDocs := st.savedDocs ++ [(buildOps split pivaOf fs, pdfFileName fs)] }
  else
    let st1 := { st with consoleErrors :=
      st.consoleErrors ++ [tl "jsPDF library is not available."] }
    let st2 := setDownloadButtonState true (some errorLabel) st1
    { st2 with alerts := st2.alerts ++ [tl "PDF generation library failed to load."] }

/-- JavaScript-style split at a separator character: `splitOnChar sep l`
returns the (possibly empty) chunks between occurrences of `sep`. -/
def splitOnChar (sep : Char) : Str → List Str
  | [] => [[]]
  | c :: cs =>
    let r := splitOnChar sep cs
    if c == sep then [] :: r
    else
      match r with
      | [] => [[c]]
      | h :: t => (c :: h) :: t

/-- The maximal space-free words of a line. -/
def wordsOf (l : Str) : List Str :=
  (splitOnChar ' ' l).filter (fun w => !w.isEmpty)

/-- Greedy line filling: keep appending the next word (with a separating
space) while the line stays within `w` character cells. -/
def greedyAdd (w : Nat) (cur : Str) : List Str → List Str
  | [] => [cur]
  | word :: rest =>
    if cur.length + 1 + word.length ≤ w then greedyAdd w (cur ++ ' ' :: word) rest
    else cur :: greedyAdd w word rest

/-- Greedy wrap of a word list to width `w`; a word never spans two lines. -/
def wrapWords (w : Nat) : List Str → List Str
  | [] => []
  | word :: rest => greedyAdd w word rest

/-- Modelled from the spec: `doc.splitTextToSize` is implemented by the
external jsPDF library (loaded from a CDN, src/script.js:13-14), so no wrap
algorithm exists in this repository.  Following spec §4.2 step 3, this stand-in
word-wraps each explicit line "to the page's usable width using a greedy wrap
that never splits a word", with the width measured in character cells.  It is
used only to instantiate theorems about `buildOps` at concrete inputs; the
theorems about pagination hold for *every* `split` function. -/
def specSplitTextToSize (t : Str) (w : Nat) : List Str :=
  ((splitOnChar '\n' t).map (fun line => wrapWords w (wordsOf line))).flatten

/-- A closing text of 54 short lines: once wrapped, 54 lines × 5 mm exceed
the usable page height of 297 − 2·15 = 267 mm. -/
def cxClosing : Str := List.intercalate ['\n'] (List.replicate 54 (tl "riga"))

/-- A form whose closing free-text field holds `cxClosing`; all other
elements are absent (valid input: `val` renders them as empty). -/
def cxFields : Fields := { closingText := some cxClosing }

/-- A form state with every element absent. -/
def emptyFields : Fields := {}

/-- An initial UI state with the download button present and no output. -/
def st0 : UIState :=
  { buttonPresent := true, buttonDisabled := false, buttonText := [],
    alerts := [], consoleErrors := [], consoleWarnings := [], savedDocs := [] }

/-! ### Helper lemmas on the string model -/

theorem marker_length : marker.length = 6 := rfl

theorem startsWith_self_append (pat t : Str) : startsWith pat (pat ++ t) = true := by
  induction pat with
  | nil => rfl
  | cons c cs ih => simp [startsWith, ih]

theorem startsWith_exists {pat l : Str} (h : startsWith pat l = true) :
    ∃ t, l = pat ++ t := by
  induction pat generalizing l with
  | nil => exact ⟨l, rfl⟩
  | cons c cs ih =>
    cases l with
    | nil => simp [startsWith] at h
    | cons d ds =>
      simp only [startsWith, Bool.and_eq_true, beq_iff_eq] at h
      obtain ⟨t, ht⟩ := ih h.2
      exact ⟨t, by rw [← h.1, ht]; rfl⟩

theorem replaceFirst_pos (pat repl : Str) (hpat : pat ≠ []) (l : Str)
    (hl : startsWith pat l = true) :
    replaceFirst pat repl l = repl ++ l.drop pat.length := by
  cases l with
  | nil =>
    cases pat with
    | nil => exact absurd rfl hpat
    | cons a ps => simp [startsWith] at hl
  | cons c cs => simp [replaceFirst, hl]

theorem replaceFirst_neg (pat repl : Str) (c : Char) (cs : Str)
    (h : startsWith pat (c :: cs) = false) :
    replaceFirst pat repl (c :: cs) = c :: replaceFirst pat repl cs := by
  simp [replaceFirst, h]

theorem contains_cons {pat : Str} (c : Char) (l : Str) (h : containsSub pat l = true) :
    containsSub pat (c :: l) = true := by
  simp [containsSub, h]

theorem contains_append_left {pat : Str} (x t : Str) (h : containsSub pat t = true) :
    containsSub pat (x ++ t) = true := by
  induction x with
  | nil => simpa using h
  | cons a xs ih => simpa using contains_cons a _ ih

theorem contains_pat_append {pat : Str} (hpat : pat ≠ []) (s : Str) :
    containsSub pat (pat ++ s) = true := by
  cases pat with
  | nil => exact absurd rfl hpat
  | cons a ps =>
    have h := startsWith_self_append (a :: ps) s
    simp only [List.cons_append] at h ⊢
    simp [containsSub, h]

theorem drop_append_of_le : ∀ (x : Str) (k : Nat) (t : Str), k ≤ x.length →
    (x ++ t).drop k = x.drop k ++ t := by
  intro x
  induction x with
  | nil =>
    intro k t h
    have : k = 0 := Nat.le_zero.mp (by simpa using h)
    subst this; simp
  | cons a xs ih =>
    intro k t h
    cases k with
    | zero => simp
    | succ k' =>
      have h' : k' ≤ xs.length := by simp at h; omega
      simpa using ih k' t h'

theorem drop_append_of_ge (x t : Str) (k : Nat) (h : x.length ≤ k) :
    (x ++ t).drop k = t.drop (k - x.length) := by
  obtain ⟨j, rfl⟩ : ∃ j, k = x.length + j := ⟨k - x.length, by omega⟩
  simp [List.drop_append]

theorem contains_after_replace : ∀ (p s : Str), containsSub marker s = true →
    containsSub marker (replaceFirst marker [] (p ++ (marker ++ s))) = true := by
  intro p
  induction p with
  | nil =>
    intro s h
    rw [List.nil_append,
      replaceFirst_pos marker [] (by decide) _ (startsWith_self_append marker s),
      List.nil_append, List.drop_left]
    exact h
  | cons c p' ih =>
    intro s h
    rw [List.cons_append]
    cases hsw : startsWith marker (c :: (p' ++ (marker ++ s))) with
    | false =>
      rw [replaceFirst_neg marker [] c _ hsw]
      exact contains_cons c _ (ih s h)
    | true =>
      rw [replaceFirst_pos marker [] (by decide) _ hsw, List.nil_append]
      rw [show (c : Char) :: (p' ++ (marker ++ s)) = (c :: p') ++ (marker ++ s) from rfl]
      by_cases hlen : marker.length ≤ (c :: p').length
      · rw [drop_append_of_le _ _ _ hlen]
        exact contains_append_left _ _ (contains_pat_append (by decide) s)
      · rw [drop_append_of_ge _ _ _ (by omega)]
        rw [drop_append_of_le marker _ s (by omega)]
        exact contains_append_left _ _ h

theorem replace_decompose : ∀ (v : Str), containsSub marker v = true →
    ∃ p s, v = p ++ (marker ++ s) ∧ replaceFirst marker [] v = p ++ s := by
  intro v
  induction v with
  | nil => intro h; simp [containsSub, startsWith, marker] at h
  | cons c cs ih =>
    intro h
    cases hsw : startsWith marker (c :: cs) with
    | true =>
      obtain ⟨t, ht⟩ := startsWith_exists hsw
      refine ⟨[], t, by simpa using ht, ?_⟩
      rw [replaceFirst_pos marker [] (by decide) _ hsw, ht, List.drop_left]
    | false =>
      have h2 : containsSub marker cs = true := by
        simpa [containsSub, hsw] using h
      obtain ⟨p, s, he, hr⟩ := ih h2
      refine ⟨c :: p, s, by simp [he], ?_⟩
      rw [replaceFirst_neg marker [] c cs hsw, hr]
      rfl

/-! ### Claim C2 -/

/-- Claim C2: for every field whose raw string value contains the suppress
marker `#HIDE#` anywhere, the value used in the exported PDF (`val` with
`forPDF = true`) is exactly the empty string, regardless of any surrounding
text (src/script.js:52-54). -/
theorem C2_export_redaction (v : Str) (h : containsSub marker v = true) :
    val (some v) true = [] := by
  simp [val, h]

theorem C2_export_redaction_witness :
    containsSub marker (tl "testo #HIDE# riservato") = true ∧
    val (some (tl "testo #HIDE# riservato")) true = [] :=
  ⟨by decide, C2_export_redaction (tl "testo #HIDE# riservato") (by decide)⟩

/-! ### Claim C3 -/

/-- Claim C3: for every field value containing the suppress marker plus
surrounding text, the preview rendering of that field (`val` with
`forPDF = false`) is the field's content with the marker stripped and the
surrounding text otherwise unmodified: the value decomposes as
`p ++ marker ++ s` and the preview output is exactly `p ++ s`
(src/script.js:57). -/
theorem C3_preview_strip (v : Str) (h : containsSub marker v = true) :
    ∃ p s, v = p ++ (marker ++ s) ∧ val (some v) false = p ++ s := by
  obtain ⟨p, s, he, hr⟩ := replace_decompose v h
  exact ⟨p, s, he, by simpa [val] using hr⟩

theorem C3_preview_strip_witness :
    containsSub marker (tl "prezzo #HIDE#riservato") = true ∧
    ∃ p s, tl "prezzo #HIDE#riservato" = p ++ (marker ++ s) ∧
      val (some (tl "prezzo #HIDE#riservato")) false = p ++ s :=
  ⟨by decide, C3_preview_strip (tl "prezzo #HIDE#riservato") (by decide)⟩

/-! ### Claim C10 -/

/-- Claim C10: in the preview path only the first occurrence of `#HIDE#` is
stripped.  For a value `p ++ marker ++ s` whose tail `s` still contains the
marker (so the marker occurs at least twice), the preview output is exactly
one marker shorter than the value (only one occurrence was removed) and
still contains the marker verbatim (src/script.js:57: JavaScript
`String.replace` with a string pattern replaces the first occurrence only). -/
theorem C10_first_occurrence_only (p s : Str) (h : containsSub marker s = true) :
    (val (some (p ++ (marker ++ s))) false).length + marker.length
      = (p ++ (marker ++ s)).length ∧
    containsSub marker (val (some (p ++ (marker ++ s))) false) = true := by
  have hv : containsSub marker (p ++ (marker ++ s)) = true :=
    contains_append_left p _ (contains_pat_append (by decide) s)
  have hval : val (some (p ++ (marker ++ s))) false
      = replaceFirst marker [] (p ++ (marker ++ s)) := by
    simp [val]
  constructor
  · obtain ⟨p', s', he, hr⟩ := replace_decompose _ hv
    rw [hval, hr, he]
    simp only [List.length_append, marker_length]
    omega
  · rw [hval]
    exact contains_after_replace p s h

theorem C10_first_occurrence_only_witness :
    containsSub marker (tl "b#HIDE#c") = true ∧
    ((val (some (tl "a" ++ (marker ++ tl "b#HIDE#c"))) false).length + marker.length
        = (tl "a" ++ (marker ++ tl "b#HIDE#c")).length ∧
      containsSub marker (val (some (tl "a" ++ (marker ++ tl "b#HIDE#c"))) false) = true) :=
  ⟨by decide, C10_first_occurrence_only (tl "a") (tl "b#HIDE#c") (by decide)⟩

/-! ### Helper lemmas on the slug -/

theorem isAlnum_dash : isAlnum '-' = false := by decide

theorem slugGo_all (v : Str) :
    ∀ b, (slugGo b v).all (fun c => isAlnum c || c == '-') = true := by
  induction v with
  | nil => intro b; rfl
  | cons c cs ih =>
    intro b
    cases hc : isAlnum c with
    | true => simp [slugGo, hc, ih false]
    | false =>
      cases b with
      | true => simpa [slugGo, hc] using ih true
      | false => simp [slugGo, hc, ih true]

theorem slugGo_filter (v : Str) : ∀ b, (slugGo b v).filter isAlnum = v.filter isAlnum := by
  induction v with
  | nil => intro b; rfl
  | cons c cs ih =>
    intro b
    cases hc : isAlnum c with
    | true => simp [slugGo, hc, List.filter_cons, ih false]
    | false =>
      cases b with
      | true => simp [slugGo, hc, List.filter_cons, ih true]
      | false => simp [slugGo, hc, List.filter_cons, isAlnum_dash, ih true]

theorem slugGo_head_alnum : ∀ (v : Str) (c : Char) (t : Str),
    slugGo true v = c :: t → isAlnum c = true := by
  intro v
  induction v with
  | nil => intro c t h; simp [slugGo] at h
  | cons d ds ih =>
    intro c t h
    cases hd : isAlnum d with
    | true =>
      simp [slugGo, hd] at h
      exact h.1 ▸ hd
    | false =>
      simp only [slugGo, hd] at h
      exact ih c t (by simpa using h)

theorem collapsedOk_cons_alnum (a : Char) (l : Str) (ha : isAlnum a = true)
    (hl : collapsedOk l = true) : collapsedOk (a :: l) = true := by
  cases l with
  | nil => rfl
  | cons b r => simp [collapsedOk, ha, hl]

theorem collapsedOk_dash (l : Str) (hl : collapsedOk l = true)
    (hhead : ∀ c t, l = c :: t → isAlnum c = true) :
    collapsedOk ('-' :: l) = true := by
  cases l with
  | nil => rfl
  | cons b r =>
    have hb := hhead b r rfl
    simp [collapsedOk, hb, hl]

theorem slugGo_collapsed (v : Str) : ∀ b, collapsedOk (slugGo b v) = true := by
  induction v with
  | nil => intro b; rfl
  | cons c cs ih =>
    intro b
    cases hc : isAlnum c with
    | true =>
      simpa [slugGo, hc] using collapsedOk_cons_alnum c _ hc (ih false)
    | false =>
      cases b with
      | true => simpa [slugGo, hc] using ih true
      | false =>
        simpa [slugGo, hc] using collapsedOk_dash _ (ih true) (slugGo_head_alnum cs)

/-! ### Claim C4 -/

/-- Claim C4, counterexample: the slug of src/script.js:393 neither
lowercases nor trims separators: the identifying value `"Q1 Report!!"` yields
the file name `offerta-Q1-Report-.pdf`, not `offerta-q1-report.pdf` as the
claim states. -/
theorem C4_slug_counterexample :
    pdfFileName { docOfferNum := some (tl "Q1 Report!!") } ≠ tl "offerta-q1-report.pdf" ∧
    pdfFileName { docOfferNum := some (tl "Q1 Report!!") } = tl "offerta-Q1-Report-.pdf" :=
  ⟨by decide, by decide⟩

/-- Claim C4 (amended): the exported file's name is `offerta-<slug>.pdf`
where `<slug>` replaces every run of non-alphanumeric characters of the
identifying field's exported value by a single `-` (never two adjacent
separators), keeps the alphanumeric characters verbatim (case preserved, no
lowercasing), and does not trim leading or trailing separators; in
particular `"Q1 Report!!"` yields the base `Q1-Report-`. -/
theorem C4_slug_amended (fs : Fields) :
    pdfFileName fs = tl "offerta-" ++ slugify (val fs.docOfferNum true) ++ tl ".pdf" ∧
    collapsedOk (slugify (val fs.docOfferNum true)) = true ∧
    (slugify (val fs.docOfferNum true)).all (fun c => isAlnum c || c == '-') = true ∧
    (slugify (val fs.docOfferNum true)).filter isAlnum
      = (val fs.docOfferNum true).filter isAlnum :=
  ⟨rfl, slugGo_collapsed _ false, slugGo_all _ false, slugGo_filter _ false⟩

/-! ### Claims C6 and C7 (preview renderer) -/

theorem val_normField (o : Option Str) (b : Bool) : val (normField o) b = val o b := by
  cases o with
  | none => cases b <;> rfl
  | some v => rfl

/-- Claim C6: for every form state — fields missing (`none`) or empty
included — `updatePreview` never raises an error (given the preview
container of src/script.js:71 is present, the case C9 is about): it always
succeeds with the rendered template, a missing field renders exactly like a
field holding the empty string, and `val` of a missing or empty field is
blank. -/
theorem C6_preview_total (fs : Fields) (prev : Str) :
    updatePreviewRun (some prev) fs = Except.ok (renderMarkup fs) ∧
    updatePreviewRun (some prev) fs = updatePreviewRun (some prev) (normalizeFields fs) ∧
    val none false = [] ∧ val (some []) false = [] := by
  refine ⟨rfl, ?_, rfl, rfl⟩
  have h : renderMarkup (normalizeFields fs) = renderMarkup fs := by
    simp only [renderMarkup, normalizeFields, val_normField]
  simp [updatePreviewRun, h]

/-- Claim C7: the preview render is a deterministic full replace: the output
does not depend on the previous display content (`innerHTML` is assigned,
never appended to, src/script.js:145), and re-rendering over the content just
produced yields that same content. -/
theorem C7_full_replace (fs : Fields) (prev1 prev2 : Str) :
    updatePreviewRun (some prev1) fs = updatePreviewRun (some prev2) fs ∧
    updatePreviewRun (some (renderMarkup fs)) fs = updatePreviewRun (some prev1) fs := by
  constructor <;> simp only [updatePreviewRun]

/-! ### Claim C5 (capability unavailable) -/

/-- Claim C5: when jsPDF is unavailable at load time, the startup check
disables the export button and replaces its label (src/script.js:397-400),
and every invocation of `downloadPDF` logs an error, shows an alert, and
returns without saving any document (src/script.js:218-223). -/
theorem C5_capability_unavailable (split : Str → Nat → List Str) (pivaOf : Str → Str)
    (fs : Fields) (st : UIState) (hbtn : st.buttonPresent = true) :
    (startupCheck false st).buttonDisabled = true ∧
    (startupCheck false st).buttonText = errorLabel ∧
    (downloadPDFrun false split pivaOf fs st).savedDocs = st.savedDocs ∧
    (downloadPDFrun false split pivaOf fs st).alerts
      = st.alerts ++ [tl "PDF generation library failed to load."] := by
  refine ⟨?_, ?_, ?_, ?_⟩ <;>
    simp [startupCheck, setDownloadButtonState, downloadPDFrun, hbtn]

theorem C5_capability_unavailable_witness :
    st0.buttonPresent = true ∧
    ((startupCheck false st0).buttonDisabled = true ∧
     (startupCheck false st0).buttonText = errorLabel ∧
     (downloadPDFrun false specSplitTextToSize (fun _ => []) emptyFields st0).savedDocs
        = st0.savedDocs ∧
     (downloadPDFrun false specSplitTextToSize (fun _ => []) emptyFields st0).alerts
        = st0.alerts ++ [tl "PDF generation library failed to load."]) :=
  ⟨rfl, C5_capability_unavailable specSplitTextToSize (fun _ => []) emptyFields st0 rfl⟩

/-! ### Claim C9 (missing display region) -/

/-- Claim C9, code-bug evidence: when the `document-preview` element is
absent, `getEl` does log a warning naming the region and returns `null`
(src/script.js:37-41), but `updatePreview` then dereferences the `null`
`previewElement` without a guard (src/script.js:145) and throws, failing the
whole render instead of degrading to a no-op for that region. -/
theorem C9_missing_region :
    (getElM (fun _ => none) (tl "document-preview")).1 = none ∧
    (getElM (fun _ => none) (tl "document-preview")).2 = [warnMsg (tl "document-preview")] ∧
    updatePreviewRun none emptyFields = Except.error tyErrMsg :=
  ⟨rfl, rfl, rfl⟩

/-! ### Claim C1 (pagination) -/

theorem mem_drawnLineYs {ops : List Op} {op : Op} {y : Nat}
    (h1 : op ∈ ops) (h2 : y ∈ opLineYs op) : y ∈ drawnLineYs ops :=
  List.mem_flatten.2 ⟨opLineYs op, List.mem_map_of_mem _ h1, h2⟩

/-- Claim C1 (amended): `downloadPDF` never appends a page — whatever the
wrap function returns and whatever the form holds, the exported document has
exactly one page, since no code path calls `addPage` and the cursor is never
compared against the bottom margin.  Consequently, whenever the closing
free-text wraps to 20 or more lines, some line is drawn *below* the bottom
margin `pageHeight - margin` instead of triggering a page break. -/
theorem C1_single_page_amended (split : Str → Nat → List Str) (pivaOf : Str → Str)
    (fs : Fields) :
    pages (buildOps split pivaOf fs) = 1 ∧
    (20 ≤ (split (val fs.closingText true) maxTextWidth).length →
      ∃ y ∈ drawnLineYs (buildOps split pivaOf fs), pageHeight - margin < y) := by
  constructor
  · simp [pages, buildOps, isAddPage]
  · intro h
    refine ⟨189 + 5 * (split introText maxTextWidth).length + 5 * 19, ?_, ?_⟩
    · have hop : Op.text (split (val fs.closingText true) maxTextWidth) 15
          (189 + 5 * (split introText maxTextWidth).length) ∈ buildOps split pivaOf fs := by
        simp only [buildOps]
        repeat first
          | exact List.Mem.head _
          | apply List.Mem.tail
      have hy : 189 + 5 * (split introText maxTextWidth).length + 5 * 19
          ∈ opLineYs (Op.text (split (val fs.closingText true) maxTextWidth) 15
            (189 + 5 * (split introText maxTextWidth).length)) := by
        simp only [opLineYs]
        exact List.mem_map_of_mem _ (List.mem_range.2 (by omega))
      exact mem_drawnLineYs hop hy
    · simp only [pageHeight, margin]
      omega

set_option maxRecDepth 8192 in
/-- Claim C1, counterexample: a form whose closing body wraps to 54 lines —
54 × 5 mm exceeds the usable height 297 − 2·15 = 267 mm, so the claim's
premise holds — yet the export still has exactly one page (not "more than
one page") and lines are drawn below the bottom margin 282 mm. -/
theorem C1_pagination_counterexample :
    pageHeight - 2 * margin
        < 5 * (specSplitTextToSize (val cxFields.closingText true) maxTextWidth).length ∧
    pages (buildOps specSplitTextToSize (fun _ => []) cxFields) = 1 ∧
    ∃ y ∈ drawnLineYs (buildOps specSplitTextToSize (fun _ => []) cxFields),
      pageHeight - margin < y := by
  refine ⟨by decide, by decide, by decide⟩

set_option maxRecDepth 8192 in
theorem C1_single_page_amended_witness :
    20 ≤ (specSplitTextToSize (val cxFields.closingText true) maxTextWidth).length ∧
    (pages (buildOps specSplitTextToSize (fun _ => []) cxFields) = 1 ∧
     ∃ y ∈ drawnLineYs (buildOps specSplitTextToSize (fun _ => []) cxFields),
       pageHeight - margin < y) :=
  ⟨by decide,
   (C1_single_page_amended specSplitTextToSize (fun _ => []) cxFields).1,
   (C1_single_page_amended specSplitTextToSize (fun _ => []) cxFields).2 (by decide)⟩

end OfferteContratti
